import Mathlib

/-!
Verification model of the lks-translation-tool backend's asynchronous
translation-job lifecycle.

The definitions below are a shallow embedding of
`backend/src/controllers/translationController.ts` (two variants: the
API-key/subprocess variant and the JWT variant concatenated in that file)
and of the remote-API controller variant (`translateDocument` calling an
external HTTP translation API).

Modelling conventions:
* the Postgres job row becomes the `TranslationJob` structure; each SQL
  UPDATE becomes a functional update of that structure;
* the filesystem becomes `Storage`, an association list from paths to
  byte strings; `fs.existsSync` becomes `storageHas`;
* each awaited `query(...)` call may either succeed or raise a database
  fault; these outcomes are supplied by a `DispatchEnv` oracle, one per
  suspension point of `processTranslationAsync`;
* the external executor (Python subprocess or remote HTTP API) is
  modelled by an environment structure describing the outcome of the
  external interaction (exit code, captured output, HTTP status, body,
  download URL, bytes written), from which the executor result is
  computed exactly as the JavaScript does;
* an exception that escapes the `catch` handler of the async function is
  an unhandled promise rejection; a synchronous throw inside a bare
  `setTimeout` callback crashes the process.  Both are recorded in the
  `Fate` of a dispatch run.
-/

namespace LksTranslation

/-- Job status enum, exactly the four string values stored in the
`status` column. -/
inductive Status
  | pending
  | processing
  | completed
  | failed
deriving DecidableEq, Repr

/-- The string stored in the database / interpolated into messages for
each status. -/
def statusString : Status → String
  | Status.pending => "pending"
  | Status.processing => "processing"
  | Status.completed => "completed"
  | Status.failed => "failed"

/-- Forward rank of a status: pending before processing before the two
terminal states. -/
def Status.rank : Status → Nat
  | Status.pending => 0
  | Status.processing => 1
  | Status.completed => 2
  | Status.failed => 2

/-- A status is terminal when no further transition is expected from it. -/
def Status.isTerminal : Status → Bool
  | Status.completed => true
  | Status.failed => true
  | _ => false

/-- One row of the `translation_jobs` table. -/
structure TranslationJob where
  id : Nat
  userId : Nat
  sourceLanguage : String
  targetLanguage : String
  documentType : String
  originalFilename : String
  originalFilePath : String
  fileSize : Nat
  status : Status
  translatedFilename : Option String
  translatedFilePath : Option String
  errorMessage : Option String
  createdAt : Nat
  completedAt : Option Nat
deriving DecidableEq, Repr

/-- The INSERT performed by `processTranslation`: a fresh pending row with
all output fields NULL. -/
def createJob (id userId : Nat) (sourceLanguage targetLanguage documentType : String)
    (originalFilename originalFilePath : String) (fileSize createdAt : Nat) :
    TranslationJob :=
  { id := id, userId := userId, sourceLanguage := sourceLanguage,
    targetLanguage := targetLanguage, documentType := documentType,
    originalFilename := originalFilename, originalFilePath := originalFilePath,
    fileSize := fileSize, status := Status.pending,
    translatedFilename := none, translatedFilePath := none,
    errorMessage := none, createdAt := createdAt, completedAt := none }

/-- File storage: an association list from paths to file contents. -/
abbrev Storage := List (String × String)

/-- Read a file (`fs.readFileSync`), `none` when the path is absent. -/
def storageGet (s : Storage) (p : String) : Option String :=
  (s.find? (fun e => e.1 == p)).map (fun e => e.2)

/-- Write a file (`fs.writeFileSync`), overwriting any previous content. -/
def storagePut (s : Storage) (p c : String) : Storage :=
  (p, c) :: s.filter (fun e => e.1 != p)

/-- `fs.existsSync`. -/
def storageHas (s : Storage) (p : String) : Bool :=
  (storageGet s p).isSome

/-- `fs.existsSync(job.translated_file_path)` where the column may be
NULL; `existsSync` returns false rather than throwing on a bad path. -/
def fileExistsAt (s : Storage) (p : Option String) : Bool :=
  match p with
  | some path => storageHas s path
  | none => false

/-- Whether the first list starts with the second. -/
def charsStartWith : List Char → List Char → Bool
  | _, [] => true
  | [], _ :: _ => false
  | c :: cs, p :: ps => c == p && charsStartWith cs ps

/-- The suffix following the first occurrence of `pat`, `none` when
`pat` does not occur.  (For empty `pat` this is the whole list.) -/
def charsAfter : List Char → List Char → Option (List Char)
  | [], pat => if pat.isEmpty then some [] else none
  | c :: cs, pat =>
    if charsStartWith (c :: cs) pat then some ((c :: cs).drop pat.length)
    else charsAfter cs pat

/-- Whether `pat` occurs inside `s` (JavaScript `String.includes`). -/
def containsSubstr (s pat : String) : Bool :=
  (charsAfter s.toList pat.toList).isSome

/-- ASCII whitespace used by the trimming model. -/
def isWhitespaceChar (c : Char) : Bool :=
  c == ' ' || c == '\t' || c == '\n' || c == '\r'

/-- JavaScript `String.trim` (restricted to ASCII whitespace). -/
def trimChars (s : String) : String :=
  String.mk (((s.toList.dropWhile isWhitespaceChar).reverse.dropWhile
    isWhitespaceChar).reverse)

/-- `path.extname`: the final extension of a name, including the dot;
empty for a name with no dot or a bare leading-dot name. -/
def extname (name : String) : String :=
  let rev := name.toList.reverse
  let tail := rev.takeWhile (fun c => c != '.')
  if tail.length = name.length then ""
  else if tail.length + 1 = name.length then ""
  else String.mk ('.' :: tail.reverse)

/-- `path.join` of a directory and a file name. -/
def joinPath (dir name : String) : String := dir ++ "/" ++ name

/-- The `uploads/translated` output directory used by the controller. -/
def uploadsTranslatedDir : String := "uploads/translated"

/-- The translated file name generated by `processTranslationAsync`:
`translated_{jobId}{ext}`. -/
def translatedNameOf (job : TranslationJob) : String :=
  "translated_" ++ toString job.id ++ extname job.originalFilename

/-- The full output path recorded for a job. -/
def translatedPathOf (job : TranslationJob) : String :=
  joinPath uploadsTranslatedDir (translatedNameOf job)

/-- Result of one executor call (`translateDocument`), carrying the
storage after its filesystem effects.  `crash` models a synchronous
throw inside a bare `setTimeout` callback (an uncaught exception that
kills the process rather than rejecting the promise). -/
inductive ExecResult
  | success (s : Storage)
  | failure (msg : String) (s : Storage)
  | crash (s : Storage)
deriving DecidableEq, Repr

/-- Whether an executor result is the process-crashing case. -/
def ExecResult.isCrash : ExecResult → Bool
  | ExecResult.crash _ => true
  | _ => false

/-! ### Subprocess executor (API-key variant of `translateDocument`)

The JavaScript checks for the Python translator file, falls back to a
mock copy when absent, and otherwise spawns a Python subprocess whose
exit code and captured stdout/stderr decide success: exit code 0 and a
`SUCCESS:` marker somewhere in the trimmed output. -/

/-- Outcome of the spawned Python process as seen by the Node side:
either the spawn itself errored, or the process exited with a code,
captured stdout/stderr, and (externally) wrote some bytes to the target
path or not. -/
inductive SubprocOutcome
  | spawnError (msg : String)
  | exited (code : Int) (output : String) (stderrOutput : String) (writes : Option String)
deriving DecidableEq, Repr

/-- Environment of the subprocess executor. -/
structure SubprocEnv where
  pythonExists : Bool
  outcome : SubprocOutcome
deriving DecidableEq, Repr

/-- The text after the first `pat` in `s`, truncated at the first
newline: the capture group of the JavaScript regex `/ERROR:(.*)/` for
`pat = "ERROR:"`. -/
def firstLineAfter (s pat : String) : String :=
  match charsAfter s.toList pat.toList with
  | none => ""
  | some cs => String.mk (cs.takeWhile (fun c => c != '\n'))

/-- The error message the subprocess branch rejects with: the trimmed
`ERROR:` line when present, otherwise the exit-code/output/stderr dump. -/
def pythonErrorMsg (code : Int) (output stderrOutput : String) : String :=
  if containsSubstr output "ERROR:" then
    trimChars (firstLineAfter output "ERROR:")
  else
    "Python process exited with code " ++ toString code ++ ". Output: " ++
      trimChars output ++ " Stderr: " ++ trimChars stderrOutput

/-- `translateDocument` of the API-key/subprocess controller variant.
When the Python translator file is absent the mock fallback copies the
source file inside a bare `setTimeout` callback (a missing source file
there is an uncaught throw, hence `crash`).  Otherwise the subprocess
runs; any bytes the external process wrote land in storage before the
exit handler fires, and the handler resolves exactly when the exit code
is 0 and the trimmed output contains `SUCCESS:`. -/
def translateDocumentSubproc (env : SubprocEnv) (sourcePath targetPath : String)
    (s : Storage) : ExecResult :=
  if env.pythonExists = false then
    match storageGet s sourcePath with
    | some content => ExecResult.success (storagePut s targetPath content)
    | none => ExecResult.crash s
  else
    match env.outcome with
    | SubprocOutcome.spawnError msg => ExecResult.failure msg s
    | SubprocOutcome.exited code output stderrOutput writes =>
      let s1 := match writes with
        | some bytes => storagePut s targetPath bytes
        | none => s
      if code = 0 ∧ containsSubstr (trimChars output) "SUCCESS:" then
        ExecResult.success s1
      else
        ExecResult.failure (pythonErrorMsg code output stderrOutput) s1

/-! ### Remote-API executor (`translateDocument` of the remote-API
controller variant)

When `EXTERNAL_TRANSLATION_API_URL` / `EXTERNAL_TRANSLATION_API_KEY`
are configured the source file is posted as form data; a non-ok
response is a hard failure carrying the body; an ok response must
contain `translatedFileUrl`, which is fetched and written to the target
path before the call resolves. -/

/-- Environment of the remote-API executor: configuration and the
outcome of the two HTTP interactions. -/
structure RemoteEnv where
  apiUrl : Option String
  apiKey : Option String
  httpOk : Bool
  httpStatus : Nat
  responseBody : String
  translatedFileUrl : Option String
  downloadOk : Bool
  downloadedBytes : String
deriving DecidableEq, Repr

/-- The download URL actually fetched: the controller rewrites
`localhost` to the API host `20.20.20.205` when the configured API URL
uses that host. -/
def rewrittenDownloadUrl (apiUrl url : String) : String :=
  if containsSubstr url "localhost" ∧ containsSubstr apiUrl "20.20.20.205" then
    url.replace "localhost" "20.20.20.205"
  else url

/-- `translateDocument` of the remote-API controller variant.  With
missing configuration it falls back to the same mock copy (again inside
a bare `setTimeout`, so a missing source is a crash).  In the
configured path every throw inside the `try` is caught and rethrown, so
it surfaces as a `failure`. -/
def translateDocumentApi (env : RemoteEnv) (sourcePath targetPath : String)
    (s : Storage) : ExecResult :=
  match env.apiUrl, env.apiKey with
  | some apiUrl, some _ =>
    match storageGet s sourcePath with
    | none =>
      ExecResult.failure ("ENOENT: no such file or directory, open " ++ sourcePath) s
    | some _ =>
      if env.httpOk = false then
        ExecResult.failure
          ("External API error: " ++ toString env.httpStatus ++ " - " ++ env.responseBody) s
      else
        match env.translatedFileUrl with
        | some url =>
          if env.downloadOk then
            ExecResult.success (storagePut s targetPath env.downloadedBytes)
          else
            ExecResult.failure
              ("Failed to download translated file from " ++ rewrittenDownloadUrl apiUrl url) s
        | none =>
          ExecResult.failure "External API did not return a translated file URL" s
  | _, _ =>
    match storageGet s sourcePath with
    | some content => ExecResult.success (storagePut s targetPath content)
    | none => ExecResult.crash s

/-! ### Dispatch (`processTranslationAsync`) -/

/-- Outcome of one awaited `query(...)` statement. -/
inductive QueryOutcome
  | ok
  | dbFault (msg : String)
deriving DecidableEq, Repr

/-- Outcome of the system-user SELECT that prefixes the API-key variant
of `processTranslationAsync`. -/
inductive UserLookup
  | found (uid : Nat)
  | missing
  | dbFault (msg : String)
deriving DecidableEq, Repr

/-- How the async dispatch function terminated: a normal return, an
exception escaping its `catch` handler (an unhandled promise
rejection), or a process crash from an uncaught synchronous throw. -/
inductive Fate
  | returned
  | unhandledRejection (msg : String)
  | processCrash
deriving DecidableEq, Repr

/-- Oracle for the awaited database statements of one dispatch run,
plus the `CURRENT_TIMESTAMP` used by the completed update. -/
structure DispatchEnv where
  userLookup : UserLookup
  procUpdate : QueryOutcome
  completeUpdate : QueryOutcome
  failUpdate : QueryOutcome
  now : Nat
deriving DecidableEq, Repr

/-- Result of one dispatch run: the job row and storage afterwards, the
fate of the async function, whether the executor was invoked, and the
sequence of status values the stored row passed through (starting from
its initial status). -/
structure DispatchResult where
  job : TranslationJob
  storage : Storage
  fate : Fate
  execInvoked : Bool
  trace : List Status
deriving Repr

/-- The `catch` handler of `processTranslationAsync`: UPDATE the row to
`failed` with the error message (note: it does not set `completed_at`).
A database fault in this very update escapes the handler as an
unhandled rejection, leaving the row as it was. -/
def recordFailure (env : DispatchEnv) (job : TranslationJob) (s : Storage)
    (msg : String) (invoked : Bool) (trace : List Status) : DispatchResult :=
  match env.failUpdate with
  | QueryOutcome.ok =>
    { job := { job with status := Status.failed, errorMessage := some msg },
      storage := s, fate := Fate.returned, execInvoked := invoked,
      trace := trace ++ [Status.failed] }
  | QueryOutcome.dbFault m =>
    { job := job, storage := s, fate := Fate.unhandledRejection m,
      execInvoked := invoked, trace := trace }

/-- `processTranslationAsync` of the API-key controller variant,
parameterized by the executor (`translateDocument`) it awaits.  The
system-user SELECT guards nothing job-related: on a fault or a missing
user the function just returns, leaving the row untouched.  The
`processing` UPDATE is unconditional — there is no `status = pending`
guard anywhere.  Success records the translated name/path and
`completed_at`; any caught error goes through `recordFailure`. -/
def processTranslationAsync (env : DispatchEnv)
    (exec : String → Storage → ExecResult)
    (job : TranslationJob) (s : Storage) : DispatchResult :=
  match env.userLookup with
  | UserLookup.missing =>
    { job := job, storage := s, fate := Fate.returned, execInvoked := false,
      trace := [job.status] }
  | UserLookup.dbFault _ =>
    { job := job, storage := s, fate := Fate.returned, execInvoked := false,
      trace := [job.status] }
  | UserLookup.found _ =>
    match env.procUpdate with
    | QueryOutcome.dbFault msg =>
      recordFailure env job s msg false [job.status]
    | QueryOutcome.ok =>
      match exec (translatedPathOf job) s with
      | ExecResult.crash s1 =>
        { job := { job with status := Status.processing }, storage := s1,
          fate := Fate.processCrash, execInvoked := true,
          trace := [job.status, Status.processing] }
      | ExecResult.failure msg s1 =>
        recordFailure env { job with status := Status.processing } s1 msg true
          [job.status, Status.processing]
      | ExecResult.success s1 =>
        match env.completeUpdate with
        | QueryOutcome.dbFault msg =>
          recordFailure env { job with status := Status.processing } s1 msg true
            [job.status, Status.processing]
        | QueryOutcome.ok =>
          { job := { job with
              status := Status.completed,
              translatedFilename := some (translatedNameOf job),
              translatedFilePath := some (translatedPathOf job),
              completedAt := some env.now },
            storage := s1, fate := Fate.returned, execInvoked := true,
            trace := [job.status, Status.processing, Status.completed] }

/-! ### Read-side API -/

/-- Coarse progress reported to clients:
`completed ? 100 : (processing ? 50 : 0)`. -/
def progressOf (st : Status) : Nat :=
  if st = Status.completed then 100
  else if st = Status.processing then 50
  else 0

/-- The job view returned by the API-key variant of `getJobStatus` and
`getTranslationHistory` (with the progress field). -/
structure JobView where
  id : Nat
  status : Status
  errorMessage : Option String
  translatedFilename : Option String
  translatedFileUrl : Option String
  completedAt : Option Nat
  progress : Nat
deriving DecidableEq, Repr

/-- Build the response view of one job row. -/
def toJobView (j : TranslationJob) : JobView :=
  { id := j.id, status := j.status, errorMessage := j.errorMessage,
    translatedFilename := j.translatedFilename,
    translatedFileUrl :=
      if j.status = Status.completed then some ("/api/files/" ++ toString j.id) else none,
    completedAt := j.completedAt,
    progress := progressOf j.status }

/-- `SELECT ... FROM translation_jobs WHERE id = $1`. -/
def findJob (jobs : List TranslationJob) (jobId : Nat) : Option TranslationJob :=
  jobs.find? (fun j => j.id == jobId)

/-- Result of the API-key variant of `getJobStatus`. -/
inductive StatusApiResult
  | systemUserMissing
  | notFound
  | okView (v : JobView)
deriving DecidableEq, Repr

/-- `getJobStatus` of the API-key controller variant: system-user
lookup, then a lookup by job id alone (no owner filter), returning the
view with the three-point progress. -/
def getJobStatusApikey (systemUser : Option Nat) (jobs : List TranslationJob)
    (jobId : Nat) : StatusApiResult :=
  match systemUser with
  | none => StatusApiResult.systemUserMissing
  | some _ =>
    match findJob jobs jobId with
    | none => StatusApiResult.notFound
    | some j => StatusApiResult.okView (toJobView j)

/-- An authenticated caller of the JWT variant. -/
structure Principal where
  userId : Nat
  role : String
deriving DecidableEq, Repr

/-- `SELECT ... WHERE id = $1 AND user_id = $2`. -/
def findJobOwned (jobs : List TranslationJob) (jobId userId : Nat) :
    Option TranslationJob :=
  jobs.find? (fun j => j.id == jobId && j.userId == userId)

/-- `getJobStatus` of the JWT controller variant: the SELECT filters by
both job id and the caller's user id, so a non-owner gets the 404
branch; `none` models that not-found response, `some` the 200 view. -/
def getJobStatusJwt (caller : Principal) (jobs : List TranslationJob)
    (jobId : Nat) : Option JobView :=
  (findJobOwned jobs jobId caller.userId).map toJobView

/-- `parseInt(q) || d`: an absent or unparsable query value — and also
an explicit 0, which is falsy — becomes the default. -/
def parseIntOr (d : Nat) (q : Option Nat) : Nat :=
  match q with
  | none => d
  | some n => if n = 0 then d else n

/-- Insert a job into a list kept in descending `created_at` order. -/
def insertByCreatedDesc (j : TranslationJob) :
    List TranslationJob → List TranslationJob
  | [] => [j]
  | k :: ks =>
    if k.createdAt ≤ j.createdAt then j :: k :: ks
    else k :: insertByCreatedDesc j ks

/-- `ORDER BY created_at DESC`. -/
def sortByCreatedDesc : List TranslationJob → List TranslationJob
  | [] => []
  | j :: js => insertByCreatedDesc j (sortByCreatedDesc js)

/-- A history response: the page of job views and the pagination block
echoed back to the caller. -/
structure HistoryResponse where
  items : List JobView
  limit : Nat
  offset : Nat
  total : Nat
deriving Repr

/-- `getTranslationHistory` of the JWT controller variant: the caller's
jobs in reverse-chronological order, `LIMIT limit OFFSET offset`, with
`pagination.total` set to the length of the returned rows array. -/
def getTranslationHistoryJwt (caller : Principal) (jobs : List TranslationJob)
    (qlimit qoffset : Option Nat) : HistoryResponse :=
  let limit := parseIntOr 50 qlimit
  let offset := parseIntOr 0 qoffset
  let mine := jobs.filter (fun j => j.userId == caller.userId)
  let page := ((sortByCreatedDesc mine).drop offset).take limit
  { items := page.map toJobView, limit := limit, offset := offset,
    total := page.length }

/-- `getTranslationHistory` of the API-key controller variant: same
shape but over all jobs (its SELECT has no user filter), `none` when
the system user is missing. -/
def getTranslationHistoryApikey (systemUser : Option Nat)
    (jobs : List TranslationJob) (qlimit qoffset : Option Nat) :
    Option HistoryResponse :=
  match systemUser with
  | none => none
  | some _ =>
    let limit := parseIntOr 50 qlimit
    let offset := parseIntOr 0 qoffset
    let page := ((sortByCreatedDesc jobs).drop offset).take limit
    some { items := page.map toJobView, limit := limit, offset := offset,
           total := page.length }

/-- Result of `downloadFile`, together with the HTTP status code and
message of each branch. -/
inductive DownloadResult
  | systemUserMissing
  | jobNotFound
  | forbidden
  | notReady (st : Status)
  | fileMissing
  | fileSent (path : String) (filename : String)
deriving DecidableEq, Repr

/-- HTTP status code of each `downloadFile` response branch. -/
def DownloadResult.httpStatus : DownloadResult → Nat
  | DownloadResult.systemUserMissing => 404
  | DownloadResult.jobNotFound => 404
  | DownloadResult.forbidden => 403
  | DownloadResult.notReady _ => 400
  | DownloadResult.fileMissing => 404
  | DownloadResult.fileSent _ _ => 200

/-- Response message of each `downloadFile` error branch (the success
branch streams the file under its translated name). -/
def DownloadResult.message : DownloadResult → String
  | DownloadResult.systemUserMissing => "System user not found"
  | DownloadResult.jobNotFound => "Translation job not found"
  | DownloadResult.forbidden => "You do not have permission to access this file"
  | DownloadResult.notReady st =>
      "Translation is not yet completed. Current status: " ++ statusString st
  | DownloadResult.fileMissing => "Translated file not found on server"
  | DownloadResult.fileSent _ filename => filename

/-- `downloadFile` of the API-key controller variant: no ownership
check (the code hardwires `isAdmin = true` and looks the job up by id
alone); not-completed is a 400, a completed row whose output path is
absent from storage is a 404 with its own message. -/
def downloadFileApikey (systemUser : Option Nat) (jobs : List TranslationJob)
    (s : Storage) (jobId : Nat) : DownloadResult :=
  match systemUser with
  | none => DownloadResult.systemUserMissing
  | some _ =>
    match findJob jobs jobId with
    | none => DownloadResult.jobNotFound
    | some job =>
      if job.status ≠ Status.completed then DownloadResult.notReady job.status
      else if fileExistsAt s job.translatedFilePath then
        DownloadResult.fileSent (job.translatedFilePath.getD "")
          (job.translatedFilename.getD "")
      else DownloadResult.fileMissing

/-- `downloadFile` of the JWT controller variant: job looked up by id,
then the ownership check (`job.user_id !== userId && !isAdmin` → 403),
then the same completed/file-exists checks. -/
def downloadFileJwt (caller : Principal) (jobs : List TranslationJob)
    (s : Storage) (jobId : Nat) : DownloadResult :=
  match findJob jobs jobId with
  | none => DownloadResult.jobNotFound
  | some job =>
    if job.userId ≠ caller.userId ∧ caller.role ≠ "admin" then
      DownloadResult.forbidden
    else if job.status ≠ Status.completed then DownloadResult.notReady job.status
    else if fileExistsAt s job.translatedFilePath then
      DownloadResult.fileSent (job.translatedFilePath.getD "")
        (job.translatedFilename.getD "")
    else DownloadResult.fileMissing

/-! ### Concrete fixtures used by counterexamples and witnesses -/

/-- A freshly created sample job (id 1, owner 7). -/
def sampleJob : TranslationJob :=
  createJob 1 7 "en" "es" "general" "doc.txt" "uploads/original/doc.txt" 10 100

/-- A dispatch run in which every awaited database statement succeeds. -/
def allOkEnv : DispatchEnv :=
  { userLookup := UserLookup.found 7, procUpdate := QueryOutcome.ok,
    completeUpdate := QueryOutcome.ok, failUpdate := QueryOutcome.ok, now := 5 }

/-- A dispatch run in which persisting the `processing` status faults. -/
def procFaultEnv : DispatchEnv :=
  { allOkEnv with procUpdate := QueryOutcome.dbFault "db down" }

/-- A dispatch run in which the failure-recording UPDATE itself faults. -/
def failRecordFaultEnv : DispatchEnv :=
  { allOkEnv with failUpdate := QueryOutcome.dbFault "db still down" }

/-- An executor that writes the output file and succeeds (the echo/mock
executor). -/
def copyExec : String → Storage → ExecResult :=
  fun tp s => ExecResult.success (storagePut s tp "translated bytes")

/-- An executor that fails with a remote-API error message. -/
def failingExec : String → Storage → ExecResult :=
  fun _ s => ExecResult.failure "remote API returned 500" s

/-- A subprocess environment whose Python process exits 0 and prints the
`SUCCESS:` marker without having written the output file. -/
def lyingSubprocEnv : SubprocEnv :=
  { pythonExists := true,
    outcome := SubprocOutcome.exited 0 "SUCCESS:done" "" none }

/-- A configured remote-API environment whose request and download both
succeed. -/
def sampleRemoteEnv : RemoteEnv :=
  { apiUrl := some "http://20.20.20.205:8000/translate", apiKey := some "key",
    httpOk := true, httpStatus := 200, responseBody := "",
    translatedFileUrl := some "http://20.20.20.205:8000/files/1",
    downloadOk := true, downloadedBytes := "translated bytes" }

/-- A one-file storage holding the sample job's source document. -/
def sampleStorage : Storage := [("uploads/original/doc.txt", "source bytes")]

/-! ### C1: status transitions -/

/-- C1 counterexample: when persisting the `processing` update faults,
the catch handler moves the job directly from `pending` to `failed`, so
a terminal state is reached without the job ever being in `processing`
— the claim that no transition skips `processing` is false. -/
theorem c1_skip_processing_counterexample :
    (processTranslationAsync procFaultEnv copyExec sampleJob []).job.status
      = Status.failed ∧
    (processTranslationAsync procFaultEnv copyExec sampleJob []).trace
      = [Status.pending, Status.failed] ∧
    Status.processing ∉ (processTranslationAsync procFaultEnv copyExec sampleJob []).trace := by
  decide

/-- C1 (amended): starting from a pending job, a single dispatch run
produces a strictly forward status trace — never backward, never
re-entering a terminal state — and the trace is one of pending alone,
pending→processing (a stuck run), pending→processing→completed,
pending→processing→failed, or pending→failed (the processing persist
faulted, so that terminal transition skips `processing`). -/
theorem c1_forward_only (env : DispatchEnv) (exec : String → Storage → ExecResult)
    (job : TranslationJob) (s : Storage) (hp : job.status = Status.pending) :
    List.Chain' (fun a b => Status.rank a < Status.rank b)
      (processTranslationAsync env exec job s).trace ∧
    (processTranslationAsync env exec job s).trace ∈
      [[Status.pending],
       [Status.pending, Status.processing],
       [Status.pending, Status.processing, Status.completed],
       [Status.pending, Status.processing, Status.failed],
       [Status.pending, Status.failed]] := by
  rcases env with ⟨ul, pu, cu, fu, now⟩
  cases ul <;> cases pu <;> cases cu <;> cases fu <;>
    cases hE : exec (translatedPathOf job) s <;>
      simp_all [processTranslationAsync, recordFailure] <;> decide

/-- C1 witness: the all-successful run instantiates the amended
statement. -/
theorem c1_forward_only_witness :
    List.Chain' (fun a b => Status.rank a < Status.rank b)
      (processTranslationAsync allOkEnv copyExec sampleJob []).trace ∧
    (processTranslationAsync allOkEnv copyExec sampleJob []).trace ∈
      [[Status.pending],
       [Status.pending, Status.processing],
       [Status.pending, Status.processing, Status.completed],
       [Status.pending, Status.processing, Status.failed],
       [Status.pending, Status.failed]] :=
  c1_forward_only allOkEnv copyExec sampleJob [] rfl

/-! ### C2: dispatch idempotency -/

/-- C2 counterexample: dispatch contains no `status = pending` guard, so
invoking it a second time on an already-completed job is not a no-op:
the executor is invoked again and the terminal row is rewritten through
`processing` back to `completed`, i.e. two dispatch calls yield two
executor executions, not one. -/
theorem c2_second_dispatch_counterexample :
    (processTranslationAsync allOkEnv copyExec sampleJob []).job.status ≠ Status.pending ∧
    (processTranslationAsync allOkEnv copyExec sampleJob []).execInvoked = true ∧
    (processTranslationAsync allOkEnv copyExec
        (processTranslationAsync allOkEnv copyExec sampleJob []).job
        (processTranslationAsync allOkEnv copyExec sampleJob []).storage).execInvoked = true ∧
    (processTranslationAsync allOkEnv copyExec
        (processTranslationAsync allOkEnv copyExec sampleJob []).job
        (processTranslationAsync allOkEnv copyExec sampleJob []).storage).trace
      = [Status.completed, Status.processing, Status.completed] := by
  decide

/-- C2 (amended): dispatch never inspects the job's current status —
whenever the system-user lookup succeeds and the `processing` update
persists, the executor is invoked, whatever the job's status was; so a
second dispatch for the same job id re-executes the Translation
Executor instead of being a no-op. -/
theorem c2_no_pending_guard (env : DispatchEnv) (exec : String → Storage → ExecResult)
    (job : TranslationJob) (s : Storage) (uid : Nat)
    (hu : env.userLookup = UserLookup.found uid)
    (hq : env.procUpdate = QueryOutcome.ok) :
    (processTranslationAsync env exec job s).execInvoked = true := by
  rcases env with ⟨ul, pu, cu, fu, now⟩
  cases ul <;> cases pu <;> cases cu <;> cases fu <;>
    cases hE : exec (translatedPathOf job) s <;>
      simp_all [processTranslationAsync, recordFailure]

/-- C2 witness: a dispatch on a job already in `completed` still invokes
the executor. -/
theorem c2_no_pending_guard_witness :
    (processTranslationAsync allOkEnv copyExec
      { sampleJob with status := Status.completed } []).execInvoked = true :=
  c2_no_pending_guard allOkEnv copyExec
    { sampleJob with status := Status.completed } [] 7 rfl rfl

/-! ### C4: completed_at -/

/-- C4 counterexample: the failure UPDATE sets only `status` and
`error_message`, so a job that transitions to `failed` ends with
`completed_at` still NULL — contradicting the claim that completed_at
is set on the transition to failed as well. -/
theorem c4_completedAt_counterexample :
    (processTranslationAsync allOkEnv failingExec sampleJob []).job.status
      = Status.failed ∧
    (processTranslationAsync allOkEnv failingExec sampleJob []).job.completedAt
      = none := by
  decide

/-- C4 (amended): for a fresh pending job, `completed_at` is set exactly
on the transition to `completed` (to the transition's timestamp) and is
never set on the transition to `failed` or in any non-terminal state. -/
theorem c4_completedAt_only_on_completed (env : DispatchEnv)
    (exec : String → Storage → ExecResult) (job : TranslationJob) (s : Storage)
    (hp : job.status = Status.pending) (hc : job.completedAt = none) :
    ((processTranslationAsync env exec job s).job.completedAt ≠ none ↔
      (processTranslationAsync env exec job s).job.status = Status.completed) ∧
    ((processTranslationAsync env exec job s).job.status = Status.completed →
      (processTranslationAsync env exec job s).job.completedAt = some env.now) := by
  rcases env with ⟨ul, pu, cu, fu, now⟩
  cases ul <;> cases pu <;> cases cu <;> cases fu <;>
    cases hE : exec (translatedPathOf job) s <;>
      simp_all [processTranslationAsync, recordFailure]

/-- C4 witness: the successful run sets completed_at to the transition
timestamp. -/
theorem c4_completedAt_only_on_completed_witness :
    ((processTranslationAsync allOkEnv copyExec sampleJob []).job.completedAt ≠ none ↔
      (processTranslationAsync allOkEnv copyExec sampleJob []).job.status
        = Status.completed) ∧
    ((processTranslationAsync allOkEnv copyExec sampleJob []).job.status
        = Status.completed →
      (processTranslationAsync allOkEnv copyExec sampleJob []).job.completedAt
        = some allOkEnv.now) :=
  c4_completedAt_only_on_completed allOkEnv copyExec sampleJob [] rfl rfl

/-! ### C5: fault containment at the dispatch boundary -/

/-- C5 counterexample: when the executor fails and the failure-recording
UPDATE itself faults, the job is left in `processing` permanently and
the fault escapes the dispatch function as an unhandled promise
rejection — refuting the claim that no fault path leaves a job stuck
and that no fault propagates out of dispatch. -/
theorem c5_stuck_processing_counterexample :
    (processTranslationAsync failRecordFaultEnv failingExec sampleJob []).job.status
      = Status.processing ∧
    (processTranslationAsync failRecordFaultEnv failingExec sampleJob []).fate
      = Fate.unhandledRejection "db still down" := by
  decide

/-- C5 (amended): provided the system-user lookup succeeds, the
failure-recording UPDATE succeeds, and the executor does not crash the
process, every fault (processing persist, executor, completed persist)
is caught at the dispatch boundary: the run returns normally and the
job ends `completed`, or ends `failed` with the error detail recorded. -/
theorem c5_fault_containment (env : DispatchEnv)
    (exec : String → Storage → ExecResult) (job : TranslationJob) (s : Storage)
    (uid : Nat) (hp : job.status = Status.pending)
    (hu : env.userLookup = UserLookup.found uid)
    (hf : env.failUpdate = QueryOutcome.ok)
    (hnc : (exec (translatedPathOf job) s).isCrash = false) :
    (processTranslationAsync env exec job s).fate = Fate.returned ∧
    ((processTranslationAsync env exec job s).job.status = Status.completed ∨
      ((processTranslationAsync env exec job s).job.status = Status.failed ∧
        (processTranslationAsync env exec job s).job.errorMessage ≠ none)) := by
  rcases env with ⟨ul, pu, cu, fu, now⟩
  cases ul <;> cases pu <;> cases cu <;> cases fu <;>
    cases hE : exec (translatedPathOf job) s <;>
      simp_all [processTranslationAsync, recordFailure, ExecResult.isCrash]

/-- C5 witness: an executor failure with a healthy database ends in
`failed` with the message recorded. -/
theorem c5_fault_containment_witness :
    (processTranslationAsync allOkEnv failingExec sampleJob []).fate = Fate.returned ∧
    ((processTranslationAsync allOkEnv failingExec sampleJob []).job.status
        = Status.completed ∨
      ((processTranslationAsync allOkEnv failingExec sampleJob []).job.status
          = Status.failed ∧
        (processTranslationAsync allOkEnv failingExec sampleJob []).job.errorMessage
          ≠ none)) :=
  c5_fault_containment allOkEnv failingExec sampleJob [] 7 rfl rfl rfl rfl

/-! ### C3: output reference and error detail presence -/

/-- C3 counterexample: the subprocess executor decides success from the
exit code and the `SUCCESS:` output marker alone, never checking that
the output file exists; a run whose Python process reports success
without writing the file leaves the job `completed` with an output
reference whose path holds no bytes in storage. -/
theorem c3_missing_bytes_counterexample :
    (processTranslationAsync allOkEnv
        (translateDocumentSubproc lyingSubprocEnv sampleJob.originalFilePath)
        sampleJob []).job.status = Status.completed ∧
    (processTranslationAsync allOkEnv
        (translateDocumentSubproc lyingSubprocEnv sampleJob.originalFilePath)
        sampleJob []).job.translatedFilePath
      = some "uploads/translated/translated_1.txt" ∧
    fileExistsAt
      (processTranslationAsync allOkEnv
          (translateDocumentSubproc lyingSubprocEnv sampleJob.originalFilePath)
          sampleJob []).storage
      (processTranslationAsync allOkEnv
          (translateDocumentSubproc lyingSubprocEnv sampleJob.originalFilePath)
          sampleJob []).job.translatedFilePath = false := by
  decide

/-- C3 (amended): for a fresh pending job, after a dispatch run the
output file reference (translated filename and path) is present exactly
when the status is `completed`, and the error detail is present exactly
when the status is `failed`; the existence of the translated bytes at
the recorded path is however not guaranteed by the code, which marks
completion without verifying the file. -/
theorem c3_presence_iff (env : DispatchEnv)
    (exec : String → Storage → ExecResult) (job : TranslationJob) (s : Storage)
    (hp : job.status = Status.pending)
    (hn : job.translatedFilename = none) (hq : job.translatedFilePath = none)
    (he : job.errorMessage = none) :
    ((processTranslationAsync env exec job s).job.translatedFilename ≠ none ↔
      (processTranslationAsync env exec job s).job.status = Status.completed) ∧
    ((processTranslationAsync env exec job s).job.translatedFilePath ≠ none ↔
      (processTranslationAsync env exec job s).job.status = Status.completed) ∧
    ((processTranslationAsync env exec job s).job.errorMessage ≠ none ↔
      (processTranslationAsync env exec job s).job.status = Status.failed) := by
  rcases env with ⟨ul, pu, cu, fu, now⟩
  cases ul <;> cases pu <;> cases cu <;> cases fu <;>
    cases hE : exec (translatedPathOf job) s <;>
      simp_all [processTranslationAsync, recordFailure]

/-- C3 witness: the failing-executor run instantiates the amended
biconditionals. -/
theorem c3_presence_iff_witness :
    ((processTranslationAsync allOkEnv failingExec sampleJob []).job.translatedFilename
        ≠ none ↔
      (processTranslationAsync allOkEnv failingExec sampleJob []).job.status
        = Status.completed) ∧
    ((processTranslationAsync allOkEnv failingExec sampleJob []).job.translatedFilePath
        ≠ none ↔
      (processTranslationAsync allOkEnv failingExec sampleJob []).job.status
        = Status.completed) ∧
    ((processTranslationAsync allOkEnv failingExec sampleJob []).job.errorMessage
        ≠ none ↔
      (processTranslationAsync allOkEnv failingExec sampleJob []).job.status
        = Status.failed) :=
  c3_presence_iff allOkEnv failingExec sampleJob [] rfl rfl rfl rfl

/-! ### C9: reported progress -/

/-- C9 counterexample: a job that fails reports progress 0, so along the
real transition pending→processing→failed the reported progress goes
0, 50, 0 — it decreases on the transition into `failed`, refuting the
claimed monotonicity. -/
theorem c9_progress_drop_counterexample :
    (processTranslationAsync allOkEnv failingExec sampleJob []).trace
      = [Status.pending, Status.processing, Status.failed] ∧
    ((processTranslationAsync allOkEnv failingExec sampleJob []).trace.map progressOf)
      = [0, 50, 0] ∧
    ¬ List.Chain' (fun a b => a ≤ b)
        ((processTranslationAsync allOkEnv failingExec sampleJob []).trace.map progressOf) := by
  have h2 : ((processTranslationAsync allOkEnv failingExec sampleJob []).trace.map
      progressOf) = [0, 50, 0] := by decide
  refine ⟨by decide, h2, ?_⟩
  rw [h2]
  simp [List.chain'_cons]

/-- C9 (amended): the reported progress is always one of 0, 50, 100 —
0 for pending, 50 for processing, 100 for completed, and also 0 for
failed; `getJobStatus` reports exactly this value for the stored
status; and over a single job's dispatch the reported progress is
non-decreasing except on the transition into `failed`, where it drops
to 0. -/
theorem c9_progress_values :
    (∀ st, progressOf st = 0 ∨ progressOf st = 50 ∨ progressOf st = 100) ∧
    progressOf Status.pending = 0 ∧ progressOf Status.processing = 50 ∧
    progressOf Status.completed = 100 ∧ progressOf Status.failed = 0 ∧
    (∀ su jobs jobId job, findJob jobs jobId = some job →
        getJobStatusApikey (some su) jobs jobId
          = StatusApiResult.okView (toJobView job) ∧
        (toJobView job).progress = progressOf job.status) ∧
    (∀ (env : DispatchEnv) (exec : String → Storage → ExecResult)
        (job : TranslationJob) (s : Storage), job.status = Status.pending →
      (processTranslationAsync env exec job s).job.status ≠ Status.failed →
      List.Chain' (fun a b => a ≤ b)
        ((processTranslationAsync env exec job s).trace.map progressOf)) := by
  refine ⟨fun st => by cases st <;> simp [progressOf], rfl, rfl, rfl, rfl, ?_, ?_⟩
  · intro su jobs jobId job hfind
    exact ⟨by simp [getJobStatusApikey, hfind], rfl⟩
  · intro env exec job s hp hnf
    rcases env with ⟨ul, pu, cu, fu, now⟩
    cases ul <;> cases pu <;> cases cu <;> cases fu <;>
      cases hE : exec (translatedPathOf job) s <;>
        simp_all [processTranslationAsync, recordFailure] <;> decide

/-- C9 witness: a found job is reported with the three-point progress,
and the successful run's progress readings are non-decreasing. -/
theorem c9_progress_values_witness :
    getJobStatusApikey (some 7) [sampleJob] 1
      = StatusApiResult.okView (toJobView sampleJob) ∧
    List.Chain' (fun a b => a ≤ b)
      ((processTranslationAsync allOkEnv copyExec sampleJob []).trace.map progressOf) :=
  ⟨(c9_progress_values.2.2.2.2.2.1 7 [sampleJob] 1 sampleJob (by decide)).1,
    c9_progress_values.2.2.2.2.2.2 allOkEnv copyExec sampleJob [] rfl (by decide)⟩

/-! ### C6: remote-API executor -/

/-- A freshly written path is present in storage. -/
theorem storageHas_storagePut (s : Storage) (p c : String) :
    storageHas (storagePut s p c) p = true := by
  simp [storageHas, storageGet, storagePut, List.find?]

/-- Every list starts with itself. -/
theorem charsStartWith_self (l : List Char) : charsStartWith l l = true := by
  induction l with
  | nil => rfl
  | cons c cs ih => simp [charsStartWith, ih]

/-- A pattern occurs in any list that ends with it. -/
theorem charsAfter_append_isSome (l p : List Char) :
    (charsAfter (l ++ p) p).isSome = true := by
  induction l with
  | nil =>
    cases p with
    | nil => rfl
    | cons c cs => simp [charsAfter, charsStartWith_self]
  | cons c cs ih =>
    simp only [List.cons_append, charsAfter]
    split
    · rfl
    · exact ih

/-- A string contains any of its suffixes (so an error message built by
appending the response body does carry that body). -/
theorem containsSubstr_append (a b : String) : containsSubstr (a ++ b) b = true := by
  have h : (a ++ b).toList = a.toList ++ b.toList := by
    simp [String.toList]
  simp only [containsSubstr, h]
  exact charsAfter_append_isSome a.toList b.toList

/-- The remote-API executor resolves only after writing the downloaded
bytes to the target path. -/
theorem translateDocumentApi_success_writes (env : RemoteEnv) (sp tp : String)
    (s s1 : Storage)
    (h : translateDocumentApi env sp tp s = ExecResult.success s1) :
    storageHas s1 tp = true := by
  unfold translateDocumentApi at h
  repeat' split at h
  all_goals first
    | exact ExecResult.noConfusion h
    | (rw [ExecResult.success.injEq] at h
       subst h
       exact storageHas_storagePut _ _ _)

/-- C6: with the remote API configured and the source file readable, a
non-success HTTP status is a hard failure whose message carries the
response body; a success response without a download URL is a failure;
a success response with a download URL fetches it and writes the bytes
to the target path before succeeding (a failed download is a failure);
success is impossible without the bytes landing at the target path, so
a dispatch that marks the job completed under this executor leaves the
translated bytes at the recorded output path. -/
theorem c6_remote_api_executor (env : RemoteEnv) (sourcePath targetPath : String)
    (s : Storage) (u k content : String)
    (hurl : env.apiUrl = some u) (hkey : env.apiKey = some k)
    (hsrc : storageGet s sourcePath = some content) :
    (env.httpOk = false →
      translateDocumentApi env sourcePath targetPath s
        = ExecResult.failure
            ("External API error: " ++ toString env.httpStatus ++ " - " ++
              env.responseBody) s ∧
      containsSubstr
        ("External API error: " ++ toString env.httpStatus ++ " - " ++ env.responseBody)
        env.responseBody = true) ∧
    (env.httpOk = true → env.translatedFileUrl = none →
      translateDocumentApi env sourcePath targetPath s
        = ExecResult.failure "External API did not return a translated file URL" s) ∧
    (∀ url, env.httpOk = true → env.translatedFileUrl = some url →
      env.downloadOk = true →
      translateDocumentApi env sourcePath targetPath s
        = ExecResult.success (storagePut s targetPath env.downloadedBytes)) ∧
    (∀ url, env.httpOk = true → env.translatedFileUrl = some url →
      env.downloadOk = false →
      translateDocumentApi env sourcePath targetPath s
        = ExecResult.failure
            ("Failed to download translated file from " ++ rewrittenDownloadUrl u url) s) ∧
    (∀ s1, translateDocumentApi env sourcePath targetPath s = ExecResult.success s1 →
      storageHas s1 targetPath = true) ∧
    (∀ (denv : DispatchEnv) (job : TranslationJob), job.status = Status.pending →
      (processTranslationAsync denv
          (fun tp s2 => translateDocumentApi env sourcePath tp s2) job s).job.status
        = Status.completed →
      fileExistsAt
        (processTranslationAsync denv
            (fun tp s2 => translateDocumentApi env sourcePath tp s2) job s).storage
        (processTranslationAsync denv
            (fun tp s2 => translateDocumentApi env sourcePath tp s2) job s).job.translatedFilePath
        = true) := by
  refine ⟨?_, ?_, ?_, ?_, ?_, ?_⟩
  · intro hok
    refine ⟨by simp [translateDocumentApi, hurl, hkey, hsrc, hok], ?_⟩
    exact containsSubstr_append
      ("External API error: " ++ toString env.httpStatus ++ " - ") env.responseBody
  · intro hok hnone
    simp [translateDocumentApi, hurl, hkey, hsrc, hok, hnone]
  · intro url hok hsome hdl
    simp [translateDocumentApi, hurl, hkey, hsrc, hok, hsome, hdl]
  · intro url hok hsome hdl
    simp [translateDocumentApi, hurl, hkey, hsrc, hok, hsome, hdl]
  · intro s1 h
    exact translateDocumentApi_success_writes env sourcePath targetPath s s1 h
  · intro denv job hp hcomp
    rcases denv with ⟨ul, pu, cu, fu, now⟩
    cases ul <;> cases pu <;> cases cu <;> cases fu <;>
      cases hE : translateDocumentApi env sourcePath (translatedPathOf job) s <;>
        simp_all [processTranslationAsync, recordFailure, fileExistsAt] <;>
          exact translateDocumentApi_success_writes env sourcePath
            (translatedPathOf job) s _ hE

/-- C6 witness: the all-successful remote run returns success and the
bytes are present at the recorded output path after a completed
dispatch. -/
theorem c6_remote_api_executor_witness :
    translateDocumentApi sampleRemoteEnv "uploads/original/doc.txt"
        "uploads/translated/translated_1.txt" sampleStorage
      = ExecResult.success
          (storagePut sampleStorage "uploads/translated/translated_1.txt"
            "translated bytes") ∧
    fileExistsAt
      (processTranslationAsync allOkEnv
          (fun tp s2 => translateDocumentApi sampleRemoteEnv "uploads/original/doc.txt" tp s2)
          sampleJob sampleStorage).storage
      (processTranslationAsync allOkEnv
          (fun tp s2 => translateDocumentApi sampleRemoteEnv "uploads/original/doc.txt" tp s2)
          sampleJob sampleStorage).job.translatedFilePath = true := by
  have h := c6_remote_api_executor sampleRemoteEnv "uploads/original/doc.txt"
    "uploads/translated/translated_1.txt" sampleStorage
    "http://20.20.20.205:8000/translate" "key" "source bytes" rfl rfl (by decide)
  refine ⟨h.2.2.1 "http://20.20.20.205:8000/files/1" rfl rfl rfl, ?_⟩
  exact h.2.2.2.2.2 allOkEnv sampleJob rfl (by decide)

/-! ### C7: retrieval error distinction -/

/-- C7: on the download path, a job that exists but is not completed is
rejected with the not-ready response (HTTP 400 carrying the current
status); a completed job whose output path holds no bytes in storage is
rejected with the missing-file response; a non-existent job id gets the
ordinary not-found response; and the two 404 responses are distinct
(different messages), so the integrity fault is surfaced distinctly
from an ordinary not-found. -/
theorem c7_retrieval_faults (su : Nat) (jobs : List TranslationJob) (s : Storage)
    (jobId : Nat) :
    (∀ job, findJob jobs jobId = some job → job.status ≠ Status.completed →
      downloadFileApikey (some su) jobs s jobId = DownloadResult.notReady job.status ∧
      (DownloadResult.notReady job.status).httpStatus = 400) ∧
    (∀ job, findJob jobs jobId = some job → job.status = Status.completed →
      fileExistsAt s job.translatedFilePath = false →
      downloadFileApikey (some su) jobs s jobId = DownloadResult.fileMissing ∧
      DownloadResult.fileMissing.httpStatus = 404 ∧
      DownloadResult.fileMissing.message = "Translated file not found on server") ∧
    (findJob jobs jobId = none →
      downloadFileApikey (some su) jobs s jobId = DownloadResult.jobNotFound ∧
      DownloadResult.jobNotFound.httpStatus = 404 ∧
      DownloadResult.jobNotFound.message = "Translation job not found") ∧
    DownloadResult.fileMissing ≠ DownloadResult.jobNotFound ∧
    DownloadResult.fileMissing.message ≠ DownloadResult.jobNotFound.message := by
  refine ⟨?_, ?_, ?_, by decide, by decide⟩
  · intro job hfind hst
    exact ⟨by simp [downloadFileApikey, hfind, hst], rfl⟩
  · intro job hfind hst hfile
    exact ⟨by simp [downloadFileApikey, hfind, hst, hfile], rfl, rfl⟩
  · intro hfind
    exact ⟨by simp [downloadFileApikey, hfind], rfl, rfl⟩

/-- C7 witness: a processing job is not ready; a completed job whose
output path is absent from storage gets the missing-file response; an
unknown id gets the ordinary not-found response. -/
theorem c7_retrieval_faults_witness :
    downloadFileApikey (some 7) [{ sampleJob with status := Status.processing }] [] 1
      = DownloadResult.notReady Status.processing ∧
    downloadFileApikey (some 7)
        [{ sampleJob with
            status := Status.completed,
            translatedFilePath := some "uploads/translated/translated_1.txt" }] [] 1
      = DownloadResult.fileMissing ∧
    downloadFileApikey (some 7) [] [] 1 = DownloadResult.jobNotFound := by
  refine ⟨?_, ?_, ?_⟩
  · exact ((c7_retrieval_faults 7 [{ sampleJob with status := Status.processing }] [] 1).1
      { sampleJob with status := Status.processing } (by decide) (by decide)).1
  · exact ((c7_retrieval_faults 7
      [{ sampleJob with
          status := Status.completed,
          translatedFilePath := some "uploads/translated/translated_1.txt" }] [] 1).2.1
      { sampleJob with
          status := Status.completed,
          translatedFilePath := some "uploads/translated/translated_1.txt" }
      (by decide) (by decide) (by decide)).1
  · exact ((c7_retrieval_faults 7 [] [] 1).2.2.1 (by decide)).1

/-! ### C8: retrieval authorization -/

/-- C8: in the JWT (per-user) controller variant, a caller who neither
owns a job nor has the admin role gets the not-found response from
`getJobStatus` (its SELECT filters on the caller's user id, so no job
contents are returned) and the forbidden response from `downloadFile`;
only the API-key variant (single shared system principal) relaxes this
check. -/
theorem c8_cross_principal_denied (caller : Principal) (jobs : List TranslationJob)
    (s : Storage) (jobId : Nat) (job : TranslationJob)
    (hfind : findJob jobs jobId = some job)
    (huniq : ∀ j ∈ jobs, j.id = jobId → j = job)
    (howner : job.userId ≠ caller.userId)
    (hrole : caller.role ≠ "admin") :
    getJobStatusJwt caller jobs jobId = none ∧
    downloadFileJwt caller jobs s jobId = DownloadResult.forbidden := by
  constructor
  · have hnone : findJobOwned jobs jobId caller.userId = none := by
      rw [findJobOwned, List.find?_eq_none]
      intro j hj h
      rw [Bool.and_eq_true, beq_iff_eq, beq_iff_eq] at h
      exact howner ((huniq j hj h.1) ▸ h.2)
    simp [getJobStatusJwt, hnone]
  · simp [downloadFileJwt, hfind, howner, hrole]

/-- C8 witness: a non-owning, non-admin caller is denied both reads of
another principal's job. -/
theorem c8_cross_principal_denied_witness :
    getJobStatusJwt { userId := 99, role := "user" } [sampleJob] 1 = none ∧
    downloadFileJwt { userId := 99, role := "user" } [sampleJob] [] 1
      = DownloadResult.forbidden :=
  c8_cross_principal_denied { userId := 99, role := "user" } [sampleJob] [] 1 sampleJob
    (by decide) (fun j hj _ => List.mem_singleton.mp hj) (by decide) (by decide)

/-! ### C10: pagination total -/

/-- Inserting into the sorted list adds one element. -/
theorem length_insertByCreatedDesc (j : TranslationJob) (l : List TranslationJob) :
    (insertByCreatedDesc j l).length = l.length + 1 := by
  induction l with
  | nil => rfl
  | cons k ks ih =>
    simp only [insertByCreatedDesc]
    split
    · simp
    · simp [ih]

/-- Sorting preserves length. -/
theorem length_sortByCreatedDesc (l : List TranslationJob) :
    (sortByCreatedDesc l).length = l.length := by
  induction l with
  | nil => rfl
  | cons j js ih => simp [sortByCreatedDesc, length_insertByCreatedDesc, ih]

/-- C10: `pagination.total` in a listHistory response equals the number
of items in the returned page — the row count after limit and offset
are applied, namely the minimum of the limit and the caller's remaining
job count past the offset — and is therefore at most the applied limit
even when more of the caller's jobs exist beyond the page. -/
theorem c10_history_total (caller : Principal) (jobs : List TranslationJob)
    (qlimit qoffset : Option Nat) :
    (getTranslationHistoryJwt caller jobs qlimit qoffset).total
      = (getTranslationHistoryJwt caller jobs qlimit qoffset).items.length ∧
    (getTranslationHistoryJwt caller jobs qlimit qoffset).total
      ≤ (getTranslationHistoryJwt caller jobs qlimit qoffset).limit ∧
    (getTranslationHistoryJwt caller jobs qlimit qoffset).total
      = min (parseIntOr 50 qlimit)
          ((jobs.filter (fun j => j.userId == caller.userId)).length
            - parseIntOr 0 qoffset) := by
  refine ⟨?_, ?_, ?_⟩
  · simp [getTranslationHistoryJwt]
  · simp only [getTranslationHistoryJwt, List.length_take, List.length_drop,
      length_sortByCreatedDesc]
    exact Nat.min_le_left _ _
  · simp [getTranslationHistoryJwt, List.length_take, List.length_drop,
      length_sortByCreatedDesc]

end LksTranslation
